import Mathlib

/-!
Verification of the gh-oauth-helper OAuth flow engine.

The repository ships three Python files; the CLI layer (`cli.py`) is present
in the sources, while the core engine module (`core.py`, class `GitHubOAuth`)
is only referenced by the CLI and the examples.  Definitions embedding the
core engine are therefore modelled from the specification (their doc comments
say so); definitions embedding `cli.py` follow that file directly.
-/

namespace GhOAuth

/-! ### Characters and percent-encoding -/

/-- URL-safe (unreserved) characters: letters, digits, `-`, `_`, `.`, `~`. -/
def urlSafeChar (c : Char) : Bool :=
  c.isAlphanum || c = '-' || c = '_' || c = '.' || c = '~'

/-- The sixteen uppercase hexadecimal digit characters. -/
def hexChars : List Char := "0123456789ABCDEF".data

/-- The hexadecimal digit character for `k % 16`. -/
def hexDigitChar (k : Nat) : Char := hexChars.getD (k % 16) '0'

/-- Big-endian hexadecimal rendering of a natural number. -/
def natToHex (n : Nat) : List Char :=
  if _h : n < 16 then [hexDigitChar n]
  else natToHex (n / 16) ++ [hexDigitChar (n % 16)]
termination_by n
decreasing_by omega

/-- Modelled from the spec: percent-encoding of one character (kept verbatim
when URL-safe, otherwise `%` followed by the hexadecimal code point). -/
def percentEncodeChar (c : Char) : List Char :=
  if urlSafeChar c then [c] else '%' :: natToHex c.toNat

/-- Percent-encoding of a character list. -/
def percentEncodeL : List Char → List Char
  | [] => []
  | c :: cs => percentEncodeChar c ++ percentEncodeL cs

/-- Percent-encoding of a string. -/
def percentEncode (s : String) : String := String.mk (percentEncodeL s.data)

/-! ### Base64url encoding (model of `secrets.token_urlsafe`) -/

/-- The 64-character base64url alphabet. -/
def b64chars : List Char :=
  "ABCDEFGHIJKLMNOPQRSTUVWXYZabcdefghijklmnopqrstuvwxyz0123456789-_".data

/-- The base64url character for `n % 64`. -/
def b64Char (n : Nat) : Char := b64chars.getD (n % 64) 'A'

/-- The index of a character in the base64url alphabet. -/
def b64Val (c : Char) : Nat := b64chars.indexOf c

/-- Base64url encoding of a byte list, without padding. -/
def b64encode : List Nat → List Char
  | [] => []
  | [b] => [b64Char (b / 4), b64Char (b % 4 * 16)]
  | [b1, b2] => [b64Char (b1 / 4), b64Char (b1 % 4 * 16 + b2 / 16), b64Char (b2 % 16 * 4)]
  | b1 :: b2 :: b3 :: rest =>
      b64Char (b1 / 4) :: b64Char (b1 % 4 * 16 + b2 / 16) ::
      b64Char (b2 % 16 * 4 + b3 / 64) :: b64Char (b3 % 64) :: b64encode rest

/-- Base64url decoding, a left inverse of `b64encode` on valid bytes. -/
def b64decode : List Char → List Nat
  | [] => []
  | [_] => []
  | [c1, c2] => [b64Val c1 * 4 + b64Val c2 / 16]
  | [c1, c2, c3] => [b64Val c1 * 4 + b64Val c2 / 16, b64Val c2 % 16 * 16 + b64Val c3 / 4]
  | c1 :: c2 :: c3 :: c4 :: rest =>
      (b64Val c1 * 4 + b64Val c2 / 16) ::
      (b64Val c2 % 16 * 16 + b64Val c3 / 4) ::
      (b64Val c3 % 4 * 64 + b64Val c4) :: b64decode rest

/-- Modelled from the spec: the CSRF state token generated when the caller
omits `state` — the base64url rendering of 32 bytes drawn from the system
CSPRNG (`secrets.token_urlsafe(32)`), deterministic in the drawn bytes. -/
def genState (randomBytes : List Nat) : String := String.mk (b64encode randomBytes)

/-- The number of trailing base64 characters contributed by the leftover
bytes (`len % 3` of them) after the three-byte groups. -/
def b64TailLen : Nat → Nat
  | 0 => 0
  | 1 => 2
  | _ => 3

/-! ### Query strings: rendering and parsing -/

/-- Split a character list at every occurrence of `sep` (the separators are
dropped; `n` separators yield `n + 1` pieces). -/
def splitOnChar (sep : Char) : List Char → List (List Char)
  | [] => [[]]
  | c :: cs =>
    match splitOnChar sep cs with
    | [] => if c = sep then [[], []] else [[c]]
    | h :: t => if c = sep then [] :: h :: t else (c :: h) :: t

/-- Join character lists with a single `sep` between consecutive pieces. -/
def joinSep (sep : Char) : List (List Char) → List Char
  | [] => []
  | [p] => p
  | p :: ps => p ++ sep :: joinSep sep ps

/-- The characters after the first `?` of a URL. -/
def queryOf (url : String) : List Char := (url.data.dropWhile (· != '?')).drop 1

/-- The key of one `key=value` query part. -/
def paramKey (part : List Char) : List Char := part.takeWhile (· != '=')

/-- The value of one `key=value` query part. -/
def paramVal (part : List Char) : List Char := (part.dropWhile (· != '=')).drop 1

/-- The raw value of the first query parameter of `url` named `key`. -/
def getQueryParam (url : String) (key : String) : Option String :=
  (((splitOnChar '&' (queryOf url)).filter (fun part => paramKey part == key.data)).head?).map
    (fun part => String.mk (paramVal part))

/-! ### Data model -/

/-- Modelled from the spec: the validated engine configuration
(`GitHubOAuth` construction arguments); an absent redirect URI is the empty
string. -/
structure Config where
  client_id : String
  client_secret : String
  redirect_uri : String
  secure_mode : Bool
deriving Repr, DecidableEq

/-- Modelled from the spec: the provider payload a `ProviderError` carries —
OAuth `error`/`error_description`/`error_uri` fields or the raw body. -/
structure ProviderPayload where
  perror : Option String
  description : Option String
  uri : Option String
  raw : Option String
deriving Repr, DecidableEq

/-- Modelled from the spec: the typed error model of §7. -/
inductive OAuthError where
  | configurationError (msg : String)
  | validationError (msg : String)
  | csrfError (msg : String)
  | networkError (msg : String)
  | authenticationError (msg : String)
  | providerError (msg : String) (status : Option Nat) (payload : Option ProviderPayload)
deriving Repr, DecidableEq

/-- Whether an outcome is a `configurationError`. -/
def isConfigErr {α : Type} : Except OAuthError α → Bool
  | .error (.configurationError _) => true
  | _ => false

/-- Whether an outcome is a `csrfError`. -/
def isCsrfErr {α : Type} : Except OAuthError α → Bool
  | .error (.csrfError _) => true
  | _ => false

/-- Modelled from the spec: the parsed JSON body of a token-endpoint
response; each field is present or absent. -/
structure TokenBody where
  error : Option String
  error_description : Option String
  error_uri : Option String
  access_token : Option String
  token_type : Option String
  scope : Option String
  refresh_token : Option String
  expires_in : Option Nat
deriving Repr, DecidableEq

/-- Modelled from the spec: the result of a successful token exchange. -/
structure TokenResponse where
  access_token : String
  token_type : String
  scope : String
  refresh_token : Option String
  expires_in : Option Nat
deriving Repr, DecidableEq

/-- Modelled from the spec: the user profile returned by token validation —
a passthrough of provider fields, each present or absent. -/
structure UserProfile where
  id : Option Nat
  login : Option String
  name : Option String
  email : Option String
  utype : Option String
  company : Option String
deriving Repr, DecidableEq

/-- An outbound HTTP request handed to the HTTP collaborator. -/
structure HttpRequest where
  method : String
  url : String
  headers : List (String × String)
  body : List (String × String)
deriving Repr, DecidableEq

/-- GitHub's authorization endpoint (fixed). -/
def authEndpoint : String := "https://github.com/login/oauth/authorize"

/-- GitHub's token endpoint (fixed). -/
def tokenEndpoint : String := "https://github.com/login/oauth/access_token"

/-- GitHub's authenticated-user endpoint (fixed). -/
def userEndpoint : String := "https://api.github.com/user"

/-! ### Construction (spec §4.1) and the CLI argument checks (`cli.py`) -/

/-- The secure-scheme test, `startswith("https://")` in the source. -/
def startsWithHttps (s : String) : Bool := "https://".data.isPrefixOf s.data

/-- Modelled from the spec: `GitHubOAuth` construction — client id and secret
required and non-empty, and in secure mode a non-empty redirect URI must use
the secure scheme.  Pure: no HTTP collaborator is in scope. -/
def mkGitHubOAuth (client_id client_secret redirect_uri : String)
    (secure_mode : Bool) : Except OAuthError Config :=
  if client_id = "" then .error (.configurationError "client_id is required")
  else if client_secret = "" then .error (.configurationError "client_secret is required")
  else if secure_mode && redirect_uri != "" && !(startsWithHttps redirect_uri) then
    .error (.configurationError "secure mode requires secure redirect URI")
  else .ok ⟨client_id, client_secret, redirect_uri, secure_mode⟩

/-- Construction seen through the uniform operation shape (result together
with the list of HTTP requests issued); construction performs none. -/
def mkGitHubOAuthH (_http : HttpRequest → Except String (Nat × String))
    (client_id client_secret redirect_uri : String) (secure_mode : Bool) :
    Except OAuthError Config × List HttpRequest :=
  (mkGitHubOAuth client_id client_secret redirect_uri secure_mode, [])

/-- From `cli.py` `validate_args`: in secure mode a supplied (non-empty)
redirect URI must start with `https://`, else `ValueError`. -/
def validate_args (secure : Bool) (redirect_uri : String) : Except String Unit :=
  if secure && redirect_uri != "" && !(startsWithHttps redirect_uri) then
    .error "Secure mode requires HTTPS redirect URI"
  else .ok ()

/-- From `cli.py` `create_oauth_helper`: repeats the secure-mode check
(raising `GitHubOAuthError`), then constructs the engine. -/
def create_oauth_helper (client_id client_secret redirect_uri : String)
    (secure : Bool) : Except OAuthError Config :=
  if secure && redirect_uri != "" && !(startsWithHttps redirect_uri) then
    .error (.configurationError "Secure mode requires HTTPS redirect URI")
  else mkGitHubOAuth client_id client_secret redirect_uri secure

/-! ### Authorization URL builder (spec §4.2) -/

/-- Modelled from the spec: the ordered query parameters of the
authorization URL — `client_id`, `redirect_uri` only if configured, `scope`
(scopes joined by a single space) only if scopes are non-empty, `state`. -/
def authQueryPairs (cfg : Config) (scopes : List String) (state : String) :
    List (String × String) :=
  [("client_id", cfg.client_id)]
    ++ (if cfg.redirect_uri != "" then [("redirect_uri", cfg.redirect_uri)] else [])
    ++ (if scopes.isEmpty then [] else [("scope", String.intercalate " " scopes)])
    ++ [("state", state)]

/-- Render one query pair as `key=value` with the value percent-encoded. -/
def renderPair (p : String × String) : List Char :=
  p.1.data ++ '=' :: percentEncodeL p.2.data

/-- Render a query-pair list, parts joined by `&`. -/
def renderQueryL (pairs : List (String × String)) : List Char :=
  joinSep '&' (pairs.map renderPair)

/-- Modelled from the spec: `generateAuthorizationURL` — uses the supplied
state or generates one from the CSPRNG bytes, and returns the URL together
with that state.  No network call. -/
def generateAuthorizationURL (cfg : Config) (scopes : List String)
    (state : Option String) (randomBytes : List Nat) : String × String :=
  let st := match state with
    | some s => s
    | none => genState randomBytes
  (String.mk (authEndpoint.data ++ '?' :: renderQueryL (authQueryPairs cfg scopes st)), st)

/-! ### Token exchange (spec §4.3) -/

/-- Modelled from the spec: the POST request to the token endpoint —
form-encoded body with client credentials, code, redirect URI if configured
and state if supplied; JSON requested via the Accept header. -/
def tokenRequest (cfg : Config) (code : String) (state : Option String) : HttpRequest :=
  ⟨"POST", tokenEndpoint,
    [("Accept", "application/json"), ("Content-Type", "application/x-www-form-urlencoded")],
    [("client_id", cfg.client_id), ("client_secret", cfg.client_secret), ("code", code)]
      ++ (if cfg.redirect_uri != "" then [("redirect_uri", cfg.redirect_uri)] else [])
      ++ (match state with | some s => [("state", s)] | none => [])⟩

/-- Modelled from the spec: the network half of the exchange — one POST;
transport failure wraps as `networkError`; a 2xx body with an `error` field
is a `providerError` carrying the provider's fields; a 2xx body without
`access_token` is `providerError "missing access_token in response"`; other
2xx bodies populate a `TokenResponse`; non-2xx is a `providerError`. -/
def exchangeHTTP (cfg : Config) (http : HttpRequest → Except String (Nat × TokenBody))
    (code : String) (state : Option String) :
    Except OAuthError TokenResponse × List HttpRequest :=
  let req := tokenRequest cfg code state
  match http req with
  | .error msg => (.error (.networkError msg), [req])
  | .ok (st, body) =>
    if 200 ≤ st ∧ st < 300 then
      match body.error with
      | some e =>
          (.error (.providerError ("OAuth error: " ++ e) (some st)
            (some ⟨some e, body.error_description, body.error_uri, none⟩)), [req])
      | none =>
        match body.access_token with
        | none => (.error (.providerError "missing access_token in response" (some st) none), [req])
        | some t =>
            (.ok ⟨t, body.token_type.getD "", body.scope.getD "",
              body.refresh_token, body.expires_in⟩, [req])
    else (.error (.providerError "token exchange failed" (some st) none), [req])

/-- Modelled from the spec: `exchangeCodeForToken` — empty code fails with
`validationError`; a state/expected-state mismatch fails with `csrfError`
before any network call; otherwise one POST via `exchangeHTTP`. -/
def exchangeCodeForToken (cfg : Config)
    (http : HttpRequest → Except String (Nat × TokenBody))
    (code : String) (state expectedState : Option String) :
    Except OAuthError TokenResponse × List HttpRequest :=
  if code = "" then (.error (.validationError "authorization code must not be empty"), [])
  else
    match state, expectedState with
    | some s, some e =>
        if s ≠ e then (.error (.csrfError "state parameter mismatch"), [])
        else exchangeHTTP cfg http code state
    | _, _ => exchangeHTTP cfg http code state

/-! ### Token validation (spec §4.4) -/

/-- Modelled from the spec: the GET request to the user endpoint with the
bearer token in the Authorization header. -/
def userRequest (token : String) : HttpRequest :=
  ⟨"GET", userEndpoint,
    [("Authorization", "Bearer " ++ token), ("Accept", "application/vnd.github.v3+json")], []⟩

/-- A canonical rendering of a user-profile body, carried as the raw
provider payload on failure. -/
def userBodyRaw (body : UserProfile) : String :=
  toString (repr body)

/-- Modelled from the spec: `testAPIAccess` — empty token fails with
`validationError` before any network call; 401/403 is
`authenticationError "token invalid or expired"`; other non-2xx is a
`providerError` carrying status and body; 2xx returns the profile as-is
(absent optional fields stay absent). -/
def testAPIAccess (_cfg : Config)
    (http : HttpRequest → Except String (Nat × UserProfile)) (token : String) :
    Except OAuthError UserProfile × List HttpRequest :=
  if token = "" then (.error (.validationError "access token must not be empty"), [])
  else
    let req := userRequest token
    match http req with
    | .error msg => (.error (.networkError msg), [req])
    | .ok (st, body) =>
      if st = 401 ∨ st = 403 then
        (.error (.authenticationError "token invalid or expired"), [req])
      else if 200 ≤ st ∧ st < 300 then (.ok body, [req])
      else
        (.error (.providerError "API access failed" (some st)
          (some ⟨none, none, none, some (userBodyRaw body)⟩)), [req])

/-! ### Token revocation (spec §4.5) -/

/-- Modelled from the spec: the DELETE-style revocation request
authenticated with app-level Basic credentials. -/
def revokeRequest (cfg : Config) (token : String) : HttpRequest :=
  ⟨"DELETE", "https://api.github.com/applications/" ++ cfg.client_id ++ "/token",
    [("Authorization", "Basic " ++ cfg.client_id ++ ":" ++ cfg.client_secret),
     ("Accept", "application/vnd.github.v3+json")],
    [("access_token", token)]⟩

/-- Modelled from the spec: `revokeToken` — empty token fails with
`validationError`; 204 yields `true`, 404 yields `false` as data, any other
status is a `providerError`. -/
def revokeToken (cfg : Config) (http : HttpRequest → Except String (Nat × String))
    (token : String) : Except OAuthError Bool × List HttpRequest :=
  if token = "" then (.error (.validationError "access token must not be empty"), [])
  else
    let req := revokeRequest cfg token
    match http req with
    | .error msg => (.error (.networkError msg), [req])
    | .ok (st, body) =>
      if st = 204 then (.ok true, [req])
      else if st = 404 then (.ok false, [req])
      else
        (.error (.providerError "token revocation failed" (some st)
          (some ⟨none, none, none, some body⟩)), [req])

/-! ### The CLI `token` command (`cli.py` `cmd_token`) -/

/-- From `cli.py` `cmd_token`: builds the engine via `create_oauth_helper`
and calls `exchange_code_for_token(code=args.code, state=args.state)` —
the `expected_state` argument is never supplied. -/
def cmdTokenCall (client_id client_secret redirect_uri : String) (secure : Bool)
    (http : HttpRequest → Except String (Nat × TokenBody))
    (code : String) (state : Option String) :
    Except OAuthError TokenResponse × List HttpRequest :=
  match create_oauth_helper client_id client_secret redirect_uri secure with
  | .error e => (.error e, [])
  | .ok cfg => exchangeCodeForToken cfg http code state none

/-! ### General lemmas about the operations -/

/-- With a non-empty code and no state mismatch, the exchange reaches the
network stage. -/
theorem exchange_no_mismatch (cfg : Config)
    (http : HttpRequest → Except String (Nat × TokenBody))
    (code : String) (state expectedState : Option String)
    (hcode : code ≠ "")
    (hnm : ∀ s e, state = some s → expectedState = some e → s = e) :
    exchangeCodeForToken cfg http code state expectedState = exchangeHTTP cfg http code state := by
  unfold exchangeCodeForToken
  rw [if_neg hcode]
  cases state with
  | none => cases expectedState <;> rfl
  | some s =>
    cases expectedState with
    | none => rfl
    | some e =>
      have hse : s = e := hnm s e rfl rfl
      simp [hse]

/-- The network stage of the exchange never produces a CSRF error. -/
theorem exchangeHTTP_not_csrf (cfg : Config)
    (http : HttpRequest → Except String (Nat × TokenBody))
    (code : String) (state : Option String) :
    isCsrfErr (exchangeHTTP cfg http code state).1 = false := by
  unfold exchangeHTTP
  cases h : http (tokenRequest cfg code state) with
  | error m => simp [h, isCsrfErr]
  | ok p =>
    obtain ⟨st, body⟩ := p
    by_cases h2 : 200 ≤ st ∧ st < 300
    · cases he : body.error with
      | some e => simp [h, h2, he, isCsrfErr]
      | none =>
        cases ht : body.access_token with
        | none => simp [h, h2, he, ht, isCsrfErr]
        | some t => simp [h, h2, he, ht, isCsrfErr]
    · simp [h, h2, isCsrfErr]

/-- The full exchange with no expected state never produces a CSRF error. -/
theorem exchange_none_not_csrf (cfg : Config)
    (http : HttpRequest → Except String (Nat × TokenBody))
    (code : String) (state : Option String) :
    isCsrfErr (exchangeCodeForToken cfg http code state none).1 = false := by
  unfold exchangeCodeForToken
  by_cases hcode : code = ""
  · simp [hcode, isCsrfErr]
  · rw [if_neg hcode]
    cases state with
    | none => exact exchangeHTTP_not_csrf cfg http code none
    | some s => exact exchangeHTTP_not_csrf cfg http code (some s)

/-- Every construction failure is a `configurationError`. -/
theorem mkGitHubOAuth_err (cid cs ru : String) (sm : Bool) (e : OAuthError)
    (h : mkGitHubOAuth cid cs ru sm = .error e) : ∃ m, e = .configurationError m := by
  unfold mkGitHubOAuth at h
  split at h
  · injection h with h2; exact ⟨_, h2.symm⟩
  · split at h
    · injection h with h2; exact ⟨_, h2.symm⟩
    · split at h
      · injection h with h2; exact ⟨_, h2.symm⟩
      · exact absurd h (by simp)

/-- Every failure of the CLI construction path is a `configurationError`. -/
theorem create_oauth_helper_err (cid cs ru : String) (sec : Bool) (e : OAuthError)
    (h : create_oauth_helper cid cs ru sec = .error e) : ∃ m, e = .configurationError m := by
  unfold create_oauth_helper at h
  split at h
  · injection h with h2; exact ⟨_, h2.symm⟩
  · exact mkGitHubOAuth_err cid cs ru sec e h

/-! ### Lemmas about percent-encoding and query-string parsing -/

/-- Hex digit lookups land among the hex digit characters. -/
theorem hexDigitChar_mem (k : Nat) : hexDigitChar k ∈ hexChars := by
  have h : ∀ j, j < 16 → hexChars.getD j '0' ∈ hexChars := by decide
  exact h (k % 16) (Nat.mod_lt _ (by norm_num))

/-- Every character of a hexadecimal rendering is a hex digit character. -/
theorem natToHex_mem (n : Nat) : ∀ c ∈ natToHex n, c ∈ hexChars := by
  induction n using Nat.strong_induction_on with
  | _ n ih =>
    rw [natToHex]
    split
    · intro c hc
      simp only [List.mem_singleton] at hc
      subst hc
      exact hexDigitChar_mem n
    · intro c hc
      rcases List.mem_append.1 hc with h | h
      · exact ih (n / 16) (by omega) c h
      · simp only [List.mem_singleton] at h
        subst h
        exact hexDigitChar_mem _

/-- Characters of a percent-encoding are URL-safe, `%`, or hex digits. -/
theorem percentEncodeL_mem : ∀ (l : List Char) (c : Char), c ∈ percentEncodeL l →
    urlSafeChar c = true ∨ c = '%' ∨ c ∈ hexChars
  | [], c, h => by simp [percentEncodeL] at h
  | x :: xs, c, h => by
      simp only [percentEncodeL] at h
      rcases List.mem_append.1 h with h1 | h2
      · unfold percentEncodeChar at h1
        split at h1
        · simp only [List.mem_singleton] at h1
          subst h1
          left
          assumption
        · rcases List.mem_cons.1 h1 with rfl | h3
          · right; left; rfl
          · right; right; exact natToHex_mem _ c h3
      · exact percentEncodeL_mem xs c h2

/-- A character that is not URL-safe, not `%` and not a hex digit never
occurs in a percent-encoding. -/
theorem percentEncodeL_not_special (ch : Char) (h1 : urlSafeChar ch = false)
    (h2 : ch ≠ '%') (h3 : ch ∉ hexChars) (l : List Char) : ch ∉ percentEncodeL l := by
  intro hm
  rcases percentEncodeL_mem l ch hm with h | h | h
  · rw [h1] at h; cases h
  · exact h2 h
  · exact h3 h

/-- Percent-encoding is the identity on URL-safe character lists. -/
theorem percentEncodeL_safe : ∀ l : List Char, (∀ c ∈ l, urlSafeChar c = true) →
    percentEncodeL l = l
  | [], _ => rfl
  | x :: xs, h => by
      simp only [percentEncodeL, percentEncodeChar, h x (by simp)]
      simp only [if_true, List.singleton_append, List.cons.injEq, true_and]
      exact percentEncodeL_safe xs (fun c hc => h c (by simp [hc]))

/-- Splitting a separator-free piece gives back that piece. -/
theorem splitOnChar_no_sep (sep : Char) : ∀ p : List Char, sep ∉ p →
    splitOnChar sep p = [p]
  | [], _ => rfl
  | c :: cs, h => by
      have hc : ¬c = sep := fun hc => h (by simp [hc])
      have ih := splitOnChar_no_sep sep cs (fun hm => h (by simp [hm]))
      simp only [splitOnChar, ih]
      rw [if_neg hc]

/-- Splitting never yields the empty piece list. -/
theorem splitOnChar_ne_nil (sep : Char) : ∀ l : List Char, splitOnChar sep l ≠ []
  | [] => by simp [splitOnChar]
  | c :: cs => by
      simp only [splitOnChar]
      split <;> split <;> simp

/-- Splitting a separator-free piece, a separator, and a remainder peels the
piece off. -/
theorem splitOnChar_append (sep : Char) : ∀ (p r : List Char), sep ∉ p →
    splitOnChar sep (p ++ sep :: r) = p :: splitOnChar sep r
  | [], r, _ => by
      simp only [List.nil_append, splitOnChar]
      cases h : splitOnChar sep r with
      | nil => exact absurd h (splitOnChar_ne_nil sep r)
      | cons a t => simp
  | c :: cs, r, h => by
      have hc : ¬c = sep := fun hc => h (by simp [hc])
      have ih := splitOnChar_append sep cs r (fun hm => h (by simp [hm]))
      simp only [List.cons_append, splitOnChar, List.append_eq, ih]
      rw [if_neg hc]

/-- Splitting inverts joining when no piece contains the separator. -/
theorem splitOnChar_joinSep (sep : Char) : ∀ parts : List (List Char),
    parts ≠ [] → (∀ p ∈ parts, sep ∉ p) →
    splitOnChar sep (joinSep sep parts) = parts
  | [], hne, _ => absurd rfl hne
  | [p], _, h => by
      simp only [joinSep]
      exact splitOnChar_no_sep sep p (h p (by simp))
  | p :: q :: ps, _, h => by
      have ih := splitOnChar_joinSep sep (q :: ps) (by simp)
        (fun x hx => h x (by simp [List.mem_cons] at hx ⊢; tauto))
      simp only [joinSep]
      rw [splitOnChar_append sep p (joinSep sep (q :: ps)) (h p (by simp)), ih]

/-- Dropping while not-`c` over a `c`-free block lands on the `c`. -/
theorem dropWhile_to (c : Char) : ∀ (l1 l2 : List Char), c ∉ l1 →
    (l1 ++ c :: l2).dropWhile (· != c) = c :: l2
  | [], l2, _ => by simp [List.dropWhile]
  | x :: xs, l2, h => by
      have hx : ¬x = c := fun hc => h (by simp [hc])
      have ih := dropWhile_to c xs l2 (fun hm => h (by simp [hm]))
      have hbx : (x != c) = true := bne_iff_ne.mpr hx
      simp only [List.cons_append, List.dropWhile_cons, hbx, if_true, ih]

/-- Taking while not-`=` over a `=`-free key stops at the `=`. -/
theorem takeWhile_to : ∀ (k v : List Char), '=' ∉ k →
    (k ++ '=' :: v).takeWhile (· != '=') = k
  | [], v, _ => by simp [List.takeWhile]
  | x :: xs, v, h => by
      have hx : ¬x = '=' := fun hc => h (by simp [hc])
      have ih := takeWhile_to xs v (fun hm => h (by simp [hm]))
      have hbx : (x != '=') = true := bne_iff_ne.mpr hx
      simp only [List.cons_append, List.takeWhile_cons, hbx, if_true, ih]

/-- The key of a rendered `key=value` part is the key. -/
theorem paramKey_renderPair (p : String × String) (h : '=' ∉ p.1.data) :
    paramKey (renderPair p) = p.1.data :=
  takeWhile_to p.1.data (percentEncodeL p.2.data) h

/-- The value of a rendered `key=value` part is the encoded value. -/
theorem paramVal_renderPair (p : String × String) (h : '=' ∉ p.1.data) :
    paramVal (renderPair p) = percentEncodeL p.2.data := by
  unfold paramVal renderPair
  rw [dropWhile_to '=' p.1.data (percentEncodeL p.2.data) h]
  simp

/-- A rendered part whose key avoids `&` contains no `&`. -/
theorem amp_not_mem_renderPair (p : String × String) (h : '&' ∉ p.1.data) :
    '&' ∉ renderPair p := by
  unfold renderPair
  intro hm
  rcases List.mem_append.1 hm with h1 | h1
  · exact h h1
  · rcases List.mem_cons.1 h1 with h2 | h2
    · cases h2
    · exact percentEncodeL_not_special '&' (by decide) (by decide) (by decide)
        p.2.data h2

/-- Comparing string data agrees with comparing the strings. -/
theorem data_beq (s t : String) : (s.data == t.data) = (s == t) := by
  by_cases h : s = t
  · subst h; simp
  · have hd : s.data ≠ t.data := fun hc => h (String.ext hc)
    simp [h, hd]

/-- Filtering rendered parts by key is rendering the filtered pairs. -/
theorem filter_renderPair (key : String) : ∀ pairs : List (String × String),
    (∀ p ∈ pairs, '=' ∉ p.1.data) →
    (pairs.map renderPair).filter (fun part => paramKey part == key.data)
      = (pairs.filter (fun p => p.1 == key)).map renderPair
  | [], _ => rfl
  | p :: ps, h => by
      have ih := filter_renderPair key ps (fun q hq => h q (by simp [hq]))
      simp only [List.map_cons, List.filter_cons]
      rw [paramKey_renderPair p (h p (by simp)), data_beq]
      cases hb : (p.1 == key) with
      | false => simp [ih]
      | true => simp [ih]

/-- The keys of the rendered parts are the pairs' keys. -/
theorem map_paramKey (pairs : List (String × String))
    (h : ∀ p ∈ pairs, '=' ∉ p.1.data) :
    (pairs.map renderPair).map paramKey = pairs.map (fun p => p.1.data) := by
  induction pairs with
  | nil => rfl
  | cons p ps ih =>
    simp only [List.map_cons, List.cons.injEq]
    exact ⟨paramKey_renderPair p (h p (by simp)),
      ih (fun q hq => h q (by simp [hq]))⟩

/-- The query portion of a generated URL is the rendered query. -/
theorem queryOf_gen (q : List Char) :
    queryOf (String.mk (authEndpoint.data ++ '?' :: q)) = q := by
  unfold queryOf
  show ((authEndpoint.data ++ '?' :: q).dropWhile (· != '?')).drop 1 = q
  rw [dropWhile_to '?' authEndpoint.data q (by decide)]
  simp

/-- Splitting a rendered query recovers the rendered parts. -/
theorem splitQuery (pairs : List (String × String)) (hne : pairs ≠ [])
    (hamp : ∀ p ∈ pairs, '&' ∉ p.1.data) :
    splitOnChar '&' (renderQueryL pairs) = pairs.map renderPair := by
  unfold renderQueryL
  apply splitOnChar_joinSep
  · simpa using hne
  · intro part hp
    rcases List.mem_map.1 hp with ⟨p, hpmem, rfl⟩
    exact amp_not_mem_renderPair p (hamp p hpmem)

/-- Looking a key up in a generated URL finds the first matching pair's
percent-encoded value. -/
theorem getParam_gen (pairs : List (String × String)) (key : String)
    (hne : pairs ≠ [])
    (hamp : ∀ p ∈ pairs, '&' ∉ p.1.data)
    (hkeq : ∀ p ∈ pairs, '=' ∉ p.1.data) :
    getQueryParam (String.mk (authEndpoint.data ++ '?' :: renderQueryL pairs)) key
      = ((pairs.filter (fun p => p.1 == key)).head?).map
          (fun p => String.mk (percentEncodeL p.2.data)) := by
  unfold getQueryParam
  rw [queryOf_gen, splitQuery pairs hne hamp, filter_renderPair key pairs hkeq]
  cases hf : pairs.filter (fun p => p.1 == key) with
  | nil => rfl
  | cons p ps =>
    have hp : p ∈ pairs := List.mem_of_mem_filter (hf ▸ List.mem_cons_self p ps)
    simp [paramVal_renderPair p (hkeq p hp)]

/-- The authorization query pairs use only the four fixed key names. -/
theorem authQueryPairs_key_names (cfg : Config) (scopes : List String) (st : String) :
    ∀ p ∈ authQueryPairs cfg scopes st,
      p.1 = "client_id" ∨ p.1 = "redirect_uri" ∨ p.1 = "scope" ∨ p.1 = "state" := by
  intro p hp
  unfold authQueryPairs at hp
  rcases List.mem_append.1 hp with h1 | h1
  · rcases List.mem_append.1 h1 with h2 | h2
    · rcases List.mem_append.1 h2 with h3 | h3
      · rw [List.mem_singleton] at h3
        subst h3
        exact Or.inl rfl
      · split at h3
        · rw [List.mem_singleton] at h3
          subst h3
          exact Or.inr (Or.inl rfl)
        · cases h3
    · split at h2
      · cases h2
      · rw [List.mem_singleton] at h2
        subst h2
        exact Or.inr (Or.inr (Or.inl rfl))
  · rw [List.mem_singleton] at h1
    subst h1
    exact Or.inr (Or.inr (Or.inr rfl))

/-- Every key of the authorization query pairs avoids `&` and `=`. -/
theorem authQueryPairs_keys (cfg : Config) (scopes : List String) (st : String) :
    ∀ p ∈ authQueryPairs cfg scopes st, '&' ∉ p.1.data ∧ '=' ∉ p.1.data := by
  intro p hp
  rcases authQueryPairs_key_names cfg scopes st p hp with h | h | h | h <;>
    rw [h] <;> exact ⟨by decide, by decide⟩

/-- The authorization query pairs are never empty. -/
theorem authQueryPairs_ne_nil (cfg : Config) (scopes : List String) (st : String) :
    authQueryPairs cfg scopes st ≠ [] := by
  intro h
  have h2 := congrArg List.length h
  simp [authQueryPairs, List.length_append] at h2

/-- The first component of a generated authorization pair. -/
theorem genURL_fst (cfg : Config) (scopes : List String)
    (stateOpt : Option String) (rnd : List Nat) :
    (generateAuthorizationURL cfg scopes stateOpt rnd).1
      = String.mk (authEndpoint.data ++ '?' :: renderQueryL
          (authQueryPairs cfg scopes (generateAuthorizationURL cfg scopes stateOpt rnd).2)) := by
  cases stateOpt <;> rfl

/-! ### Lemmas about the base64url state tokens -/

/-- Decoding inverts the alphabet lookup below 64. -/
theorem b64Val_b64Char : ∀ n, n < 64 → b64Val (b64Char n) = n := by decide

/-- Every character of the base64url alphabet is URL-safe. -/
theorem b64chars_urlSafe : ∀ c ∈ b64chars, urlSafeChar c = true := by decide

/-- Alphabet lookups land in the alphabet. -/
theorem b64Char_mem (n : Nat) : b64Char n ∈ b64chars := by
  have h : ∀ k, k < 64 → b64chars.getD k 'A' ∈ b64chars := by decide
  exact h (n % 64) (Nat.mod_lt _ (by norm_num))

/-- Every character of a base64url encoding is in the alphabet. -/
theorem b64encode_mem : ∀ (l : List Nat) (c : Char), c ∈ b64encode l → c ∈ b64chars
  | [], c, h => by simp [b64encode] at h
  | [b], c, h => by
      simp only [b64encode, List.mem_cons, List.not_mem_nil, or_false] at h
      rcases h with rfl | rfl <;> exact b64Char_mem _
  | [b1, b2], c, h => by
      simp only [b64encode, List.mem_cons, List.not_mem_nil, or_false] at h
      rcases h with rfl | rfl | rfl <;> exact b64Char_mem _
  | b1 :: b2 :: b3 :: rest, c, h => by
      simp only [b64encode, List.mem_cons] at h
      rcases h with rfl | rfl | rfl | rfl | h
      · exact b64Char_mem _
      · exact b64Char_mem _
      · exact b64Char_mem _
      · exact b64Char_mem _
      · exact b64encode_mem rest c h

/-- Base64url decoding is a left inverse of encoding on byte lists. -/
theorem b64_roundtrip : ∀ l : List Nat, (∀ x ∈ l, x < 256) → b64decode (b64encode l) = l
  | [], _ => rfl
  | [b], h => by
      have hb : b < 256 := h b (by simp)
      simp only [b64encode, b64decode]
      rw [b64Val_b64Char _ (by omega), b64Val_b64Char _ (by omega)]
      simp only [List.cons.injEq, and_true]
      omega
  | [b1, b2], h => by
      have hb1 : b1 < 256 := h b1 (by simp)
      have hb2 : b2 < 256 := h b2 (by simp)
      simp only [b64encode, b64decode]
      rw [b64Val_b64Char _ (by omega), b64Val_b64Char _ (by omega),
        b64Val_b64Char _ (by omega)]
      simp only [List.cons.injEq, and_true]
      constructor
      · omega
      · omega
  | b1 :: b2 :: b3 :: rest, h => by
      have hb1 : b1 < 256 := h b1 (by simp)
      have hb2 : b2 < 256 := h b2 (by simp)
      have hb3 : b3 < 256 := h b3 (by simp)
      have ih := b64_roundtrip rest
        (fun x hx => h x (by simp [List.mem_cons] at hx ⊢; tauto))
      simp only [b64encode, b64decode]
      rw [b64Val_b64Char _ (by omega), b64Val_b64Char _ (by omega),
        b64Val_b64Char _ (by omega), b64Val_b64Char _ (by omega)]
      rw [ih]
      simp only [List.cons.injEq]
      exact ⟨by omega, by omega, by omega, trivial⟩

/-- Base64url encoding is injective on byte lists. -/
theorem b64encode_inj (l1 l2 : List Nat) (h1 : ∀ x ∈ l1, x < 256)
    (h2 : ∀ x ∈ l2, x < 256) (he : b64encode l1 = b64encode l2) : l1 = l2 := by
  have h := congrArg b64decode he
  rwa [b64_roundtrip l1 h1, b64_roundtrip l2 h2] at h

/-- The encoded length is determined by the byte count. -/
theorem b64encode_length : ∀ l : List Nat,
    (b64encode l).length = 4 * (l.length / 3) + b64TailLen (l.length % 3)
  | [] => rfl
  | [_] => by norm_num [b64encode, b64TailLen]
  | [_, _] => by norm_num [b64encode, b64TailLen]
  | _ :: _ :: _ :: rest => by
      have ih := b64encode_length rest
      simp only [b64encode, List.length_cons]
      rw [ih]
      have hm : (rest.length + 1 + 1 + 1) % 3 = rest.length % 3 := by omega
      have hd : (rest.length + 1 + 1 + 1) / 3 = rest.length / 3 + 1 := by omega
      rw [hm, hd]
      omega

/-! ### Claim theorems -/

/-- C1: whenever `exchangeCodeForToken` is called with a non-empty code and
both `state` and `expectedState` supplied but different, it fails with
`CSRFError` and issues zero HTTP requests to the collaborator. -/
theorem C1_exchange_state_mismatch_no_network (cfg : Config)
    (http : HttpRequest → Except String (Nat × TokenBody))
    (code s e : String) (hcode : code ≠ "") (hne : s ≠ e) :
    exchangeCodeForToken cfg http code (some s) (some e)
      = (.error (.csrfError "state parameter mismatch"), ([] : List HttpRequest)) := by
  unfold exchangeCodeForToken
  rw [if_neg hcode]
  simp [hne]

/-- Witness for C1 at concrete mismatched states, with a stub collaborator. -/
theorem C1_witness :
    exchangeCodeForToken ⟨"id", "secret", "", false⟩ (fun _ => .error "unreachable")
      "validcode" (some "abc") (some "xyz")
      = (.error (.csrfError "state parameter mismatch"), ([] : List HttpRequest)) :=
  C1_exchange_state_mismatch_no_network ⟨"id", "secret", "", false⟩
    (fun _ => .error "unreachable") "validcode" "abc" "xyz" (by decide) (by decide)

/-- C2: with secure mode on and a non-empty redirect URI not starting with
`https://`, construction fails with
`ConfigurationError "secure mode requires secure redirect URI"` (the CLI
pre-check in `create_oauth_helper` likewise fails); with secure mode on, a
secure-scheme or empty redirect URI and non-empty credentials, construction
succeeds. -/
theorem C2_secure_mode_redirect (cid cs ru : String) :
    (ru ≠ "" → startsWithHttps ru = false →
       isConfigErr (mkGitHubOAuth cid cs ru true) = true
       ∧ isConfigErr (create_oauth_helper cid cs ru true) = true
       ∧ (cid ≠ "" → cs ≠ "" →
            mkGitHubOAuth cid cs ru true
              = .error (.configurationError "secure mode requires secure redirect URI")))
    ∧ ((ru = "" ∨ startsWithHttps ru = true) → cid ≠ "" → cs ≠ "" →
         mkGitHubOAuth cid cs ru true = .ok ⟨cid, cs, ru, true⟩) := by
  constructor
  · intro hru hsw
    refine ⟨?_, ?_, ?_⟩
    · unfold mkGitHubOAuth
      by_cases hcid : cid = ""
      · simp [hcid, isConfigErr]
      · by_cases hcs : cs = ""
        · simp [hcid, hcs, isConfigErr]
        · simp [hcid, hcs, hru, hsw, isConfigErr]
    · unfold create_oauth_helper
      simp [hru, hsw, isConfigErr]
    · intro hcid hcs
      unfold mkGitHubOAuth
      simp [hcid, hcs, hru, hsw]
  · intro hok hcid hcs
    unfold mkGitHubOAuth
    rcases hok with h | h
    · simp [hcid, hcs, h]
    · simp [hcid, hcs, h]

/-- Witness for C2: an insecure redirect URI is rejected with the exact
error, and a secure one is accepted, at concrete inputs. -/
theorem C2_witness :
    mkGitHubOAuth "id" "secret" "http://localhost:8080/callback" true
      = .error (.configurationError "secure mode requires secure redirect URI")
    ∧ mkGitHubOAuth "id" "secret" "https://example.com/cb" true
      = .ok ⟨"id", "secret", "https://example.com/cb", true⟩ :=
  ⟨((C2_secure_mode_redirect "id" "secret" "http://localhost:8080/callback").1
      (by decide) (by decide)).2.2 (by decide) (by decide),
   (C2_secure_mode_redirect "id" "secret" "https://example.com/cb").2
      (Or.inr (by decide)) (by decide) (by decide)⟩

/-- C9: construction with a missing (empty) client id or client secret fails
with `ConfigurationError`, and construction issues no HTTP requests for any
inputs. -/
theorem C9_construction_credentials_no_network
    (http : HttpRequest → Except String (Nat × String))
    (cid cs ru : String) (sm : Bool) :
    ((cid = "" ∨ cs = "") → isConfigErr (mkGitHubOAuthH http cid cs ru sm).1 = true)
    ∧ (mkGitHubOAuthH http cid cs ru sm).2 = [] := by
  constructor
  · intro h
    unfold mkGitHubOAuthH mkGitHubOAuth
    rcases h with h | h
    · simp [h, isConfigErr]
    · by_cases hcid : cid = ""
      · simp [hcid, isConfigErr]
      · simp [hcid, h, isConfigErr]
  · rfl

/-- Witness for C9 at an empty client id. -/
theorem C9_witness :
    isConfigErr (mkGitHubOAuthH (fun _ => .error "unreachable") "" "secret" "" false).1 = true
    ∧ (mkGitHubOAuthH (fun _ => .error "unreachable") "" "secret" "" false).2 = [] :=
  ⟨(C9_construction_credentials_no_network (fun _ => .error "unreachable")
      "" "secret" "" false).1 (Or.inl rfl),
   (C9_construction_credentials_no_network (fun _ => .error "unreachable")
      "" "secret" "" false).2⟩

/-- C10: the CLI `token` command calls the exchange with only a code and a
single state argument and never an expected state, so no invocation through
`cmd_token` can produce a `CSRFError`. -/
theorem C10_cmd_token_never_csrf (cid cs ru : String) (sec : Bool)
    (http : HttpRequest → Except String (Nat × TokenBody))
    (code : String) (state : Option String) :
    isCsrfErr (cmdTokenCall cid cs ru sec http code state).1 = false := by
  unfold cmdTokenCall
  cases h : create_oauth_helper cid cs ru sec with
  | error e =>
    obtain ⟨m, rfl⟩ := create_oauth_helper_err cid cs ru sec e h
    simp [isCsrfErr]
  | ok cfg => exact exchange_none_not_csrf cfg http code state

/-- C3: `generateAuthorizationURL` returns the pair of URL and state in
which the returned state is the value embedded as the `state` query
parameter of the URL (up to the percent-encoding applied to every parameter,
which is the identity on URL-safe states such as every generated one), and a
caller-supplied state is returned unchanged. -/
theorem C3_state_identity (cfg : Config) (scopes : List String)
    (stateOpt : Option String) (rnd : List Nat) :
    (∀ s, stateOpt = some s → (generateAuthorizationURL cfg scopes stateOpt rnd).2 = s)
    ∧ (stateOpt = none →
        (generateAuthorizationURL cfg scopes stateOpt rnd).2 = genState rnd)
    ∧ getQueryParam (generateAuthorizationURL cfg scopes stateOpt rnd).1 "state"
        = some (percentEncode (generateAuthorizationURL cfg scopes stateOpt rnd).2)
    ∧ ((generateAuthorizationURL cfg scopes stateOpt rnd).2.data.all urlSafeChar = true →
        getQueryParam (generateAuthorizationURL cfg scopes stateOpt rnd).1 "state"
          = some (generateAuthorizationURL cfg scopes stateOpt rnd).2)
    ∧ (stateOpt = none →
        getQueryParam (generateAuthorizationURL cfg scopes stateOpt rnd).1 "state"
          = some (generateAuthorizationURL cfg scopes stateOpt rnd).2) := by
  have hmain : getQueryParam (generateAuthorizationURL cfg scopes stateOpt rnd).1 "state"
      = some (percentEncode (generateAuthorizationURL cfg scopes stateOpt rnd).2) := by
    rw [genURL_fst]
    rw [getParam_gen (authQueryPairs cfg scopes
          (generateAuthorizationURL cfg scopes stateOpt rnd).2) "state"
        (authQueryPairs_ne_nil cfg scopes _)
        (fun p hp => (authQueryPairs_keys cfg scopes _ p hp).1)
        (fun p hp => (authQueryPairs_keys cfg scopes _ p hp).2)]
    by_cases hr : cfg.redirect_uri != "" <;> by_cases hs : scopes.isEmpty <;>
      simp [authQueryPairs, hr, hs, percentEncode,
        show (("client_id" : String) == "state") = false from by decide,
        show (("redirect_uri" : String) == "state") = false from by decide,
        show (("scope" : String) == "state") = false from by decide]
  have hsafeImp : (generateAuthorizationURL cfg scopes stateOpt rnd).2.data.all urlSafeChar
        = true →
      getQueryParam (generateAuthorizationURL cfg scopes stateOpt rnd).1 "state"
        = some (generateAuthorizationURL cfg scopes stateOpt rnd).2 := by
    intro hsafe
    rw [hmain]
    have hid : percentEncodeL (generateAuthorizationURL cfg scopes stateOpt rnd).2.data
        = (generateAuthorizationURL cfg scopes stateOpt rnd).2.data :=
      percentEncodeL_safe _ (by simpa [List.all_eq_true] using hsafe)
    show some (String.mk (percentEncodeL _)) = _
    rw [hid]
  refine ⟨?_, ?_, hmain, hsafeImp, ?_⟩
  · intro s hs
    subst hs
    rfl
  · intro hs
    subst hs
    rfl
  · intro hnone
    apply hsafeImp
    subst hnone
    show (genState rnd).data.all urlSafeChar = true
    simp only [genState, List.all_eq_true]
    intro c hc
    exact b64chars_urlSafe c (b64encode_mem rnd c hc)

/-- Witness for C3: with a caller-supplied URL-safe state, the returned
state is the supplied one and is what the URL's `state` parameter holds. -/
theorem C3_witness :
    (generateAuthorizationURL ⟨"id", "secret", "https://example.com/cb", true⟩
        ["repo"] (some "abc123") []).2 = "abc123"
    ∧ getQueryParam (generateAuthorizationURL ⟨"id", "secret", "https://example.com/cb", true⟩
        ["repo"] (some "abc123") []).1 "state" = some "abc123" :=
  ⟨(C3_state_identity ⟨"id", "secret", "https://example.com/cb", true⟩
      ["repo"] (some "abc123") []).1 "abc123" rfl,
   (C3_state_identity ⟨"id", "secret", "https://example.com/cb", true⟩
      ["repo"] (some "abc123") []).2.2.2.1 (by decide)⟩

/-- C8: the generated URL's query holds exactly the keys `client_id`,
`redirect_uri` (only if configured), `scope` (the scopes joined by single
spaces, percent-encoded; omitted when scopes are empty) and `state`, in that
order, and never an `allow_signup` parameter. -/
theorem C8_query_parameter_order (cfg : Config) (scopes : List String)
    (stateOpt : Option String) (rnd : List Nat) :
    ((splitOnChar '&' (queryOf (generateAuthorizationURL cfg scopes stateOpt rnd).1)).map paramKey
       = (authQueryPairs cfg scopes (generateAuthorizationURL cfg scopes stateOpt rnd).2).map
           (fun p => p.1.data))
    ∧ (authQueryPairs cfg scopes (generateAuthorizationURL cfg scopes stateOpt rnd).2).map
          Prod.fst
        = ["client_id"]
          ++ (if cfg.redirect_uri != "" then ["redirect_uri"] else [])
          ++ (if scopes.isEmpty then [] else ["scope"]) ++ ["state"]
    ∧ getQueryParam (generateAuthorizationURL cfg scopes stateOpt rnd).1 "allow_signup" = none
    ∧ (scopes = [] →
        getQueryParam (generateAuthorizationURL cfg scopes stateOpt rnd).1 "scope" = none)
    ∧ (scopes ≠ [] →
        getQueryParam (generateAuthorizationURL cfg scopes stateOpt rnd).1 "scope"
          = some (percentEncode (String.intercalate " " scopes))) := by
  refine ⟨?_, ?_, ?_, ?_, ?_⟩
  · rw [genURL_fst, queryOf_gen,
      splitQuery _ (authQueryPairs_ne_nil cfg scopes _)
        (fun p hp => (authQueryPairs_keys cfg scopes _ p hp).1),
      map_paramKey _ (fun p hp => (authQueryPairs_keys cfg scopes _ p hp).2)]
  · by_cases hr : cfg.redirect_uri != "" <;> by_cases hs : scopes.isEmpty <;>
      simp [authQueryPairs, hr, hs]
  · rw [genURL_fst]
    rw [getParam_gen _ "allow_signup" (authQueryPairs_ne_nil cfg scopes _)
        (fun p hp => (authQueryPairs_keys cfg scopes _ p hp).1)
        (fun p hp => (authQueryPairs_keys cfg scopes _ p hp).2)]
    by_cases hr : cfg.redirect_uri != "" <;> by_cases hs : scopes.isEmpty <;>
      simp [authQueryPairs, hr, hs,
        show (("client_id" : String) == "allow_signup") = false from by decide,
        show (("redirect_uri" : String) == "allow_signup") = false from by decide,
        show (("scope" : String) == "allow_signup") = false from by decide,
        show (("state" : String) == "allow_signup") = false from by decide]
  · intro hscopes
    subst hscopes
    rw [genURL_fst]
    rw [getParam_gen _ "scope" (authQueryPairs_ne_nil cfg [] _)
        (fun p hp => (authQueryPairs_keys cfg [] _ p hp).1)
        (fun p hp => (authQueryPairs_keys cfg [] _ p hp).2)]
    by_cases hr : cfg.redirect_uri != "" <;>
      simp [authQueryPairs, hr,
        show (("client_id" : String) == "scope") = false from by decide,
        show (("redirect_uri" : String) == "scope") = false from by decide,
        show (("state" : String) == "scope") = false from by decide]
  · intro hscopes
    have hs : scopes.isEmpty = false := by
      cases scopes with
      | nil => exact absurd rfl hscopes
      | cons a l => rfl
    rw [genURL_fst]
    rw [getParam_gen _ "scope" (authQueryPairs_ne_nil cfg scopes _)
        (fun p hp => (authQueryPairs_keys cfg scopes _ p hp).1)
        (fun p hp => (authQueryPairs_keys cfg scopes _ p hp).2)]
    by_cases hr : cfg.redirect_uri != "" <;>
      simp [authQueryPairs, hr, hs, percentEncode,
        show (("client_id" : String) == "scope") = false from by decide,
        show (("redirect_uri" : String) == "scope") = false from by decide,
        show (("state" : String) == "scope") = false from by decide]

/-- Witness for C8: with no scopes the URL has no `scope` parameter; with
two scopes the `scope` parameter is the space-joined, percent-encoded list;
`allow_signup` is never present. -/
theorem C8_witness :
    getQueryParam (generateAuthorizationURL ⟨"id", "secret", "", false⟩
        [] (some "s") []).1 "scope" = none
    ∧ getQueryParam (generateAuthorizationURL ⟨"id", "secret", "", false⟩
        ["user:email", "repo"] (some "s") []).1 "scope"
      = some (percentEncode (String.intercalate " " ["user:email", "repo"]))
    ∧ getQueryParam (generateAuthorizationURL ⟨"id", "secret", "", false⟩
        ["user:email", "repo"] (some "s") []).1 "allow_signup" = none :=
  ⟨(C8_query_parameter_order ⟨"id", "secret", "", false⟩ [] (some "s") []).2.2.2.1 rfl,
   (C8_query_parameter_order ⟨"id", "secret", "", false⟩
      ["user:email", "repo"] (some "s") []).2.2.2.2 (by decide),
   (C8_query_parameter_order ⟨"id", "secret", "", false⟩
      ["user:email", "repo"] (some "s") []).2.2.1⟩

/-- C5: a state token generated from the 32 CSPRNG bytes is non-empty,
consists only of URL-safe characters, is 43 (hence at least 32) characters
long, and the generator is injective on the 256-bit byte space, so the
128-bit entropy of the bytes is preserved and distinct draws give distinct
tokens. -/
theorem C5_generated_state_properties (bytes : List Nat)
    (hlen : bytes.length = 32) (hval : ∀ x ∈ bytes, x < 256) :
    genState bytes ≠ ""
    ∧ (genState bytes).length = 43
    ∧ 32 ≤ (genState bytes).length
    ∧ (genState bytes).data.all urlSafeChar = true
    ∧ (∀ bytes2, bytes2.length = 32 → (∀ x ∈ bytes2, x < 256) →
        genState bytes = genState bytes2 → bytes = bytes2) := by
  have hlen43 : (b64encode bytes).length = 43 := by
    rw [b64encode_length, hlen]
    norm_num [b64TailLen]
  refine ⟨?_, ?_, ?_, ?_, ?_⟩
  · intro h
    have hd : b64encode bytes = [] := congrArg String.data h
    rw [hd] at hlen43
    simp at hlen43
  · show (b64encode bytes).length = 43
    exact hlen43
  · show 32 ≤ (b64encode bytes).length
    omega
  · simp only [genState, List.all_eq_true]
    intro c hc
    exact b64chars_urlSafe c (b64encode_mem bytes c hc)
  · intro bytes2 _ hval2 h
    have hd : b64encode bytes = b64encode bytes2 := congrArg String.data h
    exact b64encode_inj bytes bytes2 hval hval2 hd

/-- Witness for C5 at two concrete 32-byte draws: all shape properties hold
and the two distinct draws give distinct tokens. -/
theorem C5_witness :
    genState (List.replicate 32 0) ≠ ""
    ∧ (genState (List.replicate 32 0)).length = 43
    ∧ 32 ≤ (genState (List.replicate 32 0)).length
    ∧ (genState (List.replicate 32 0)).data.all urlSafeChar = true
    ∧ genState (List.replicate 32 0) ≠ genState (List.replicate 32 1) := by
  have h0 := C5_generated_state_properties (List.replicate 32 0) (by decide) (by decide)
  refine ⟨h0.1, h0.2.1, h0.2.2.1, h0.2.2.2.1, ?_⟩
  intro h
  have := h0.2.2.2.2 (List.replicate 32 1) (by decide) (by decide) h
  exact absurd this (by decide)

/-- C4: on a 2xx token-endpoint response to an exchange with non-empty code
and no state mismatch, a body with an `error` field fails with
`ProviderError` carrying the provider's error/description/uri fields; a body
without `access_token` fails with
`ProviderError "missing access_token in response"`; otherwise the returned
`TokenResponse` has the body's `access_token`. -/
theorem C4_exchange_response_classification (cfg : Config)
    (http : HttpRequest → Except String (Nat × TokenBody))
    (code : String) (state expectedState : Option String) (st : Nat) (body : TokenBody)
    (hcode : code ≠ "")
    (hnm : ∀ s e, state = some s → expectedState = some e → s = e)
    (hresp : http (tokenRequest cfg code state) = .ok (st, body))
    (h2xx : 200 ≤ st ∧ st < 300) :
    (∀ e, body.error = some e →
       exchangeCodeForToken cfg http code state expectedState
         = (.error (.providerError ("OAuth error: " ++ e) (some st)
             (some ⟨some e, body.error_description, body.error_uri, none⟩)),
            [tokenRequest cfg code state]))
    ∧ (body.error = none → body.access_token = none →
       exchangeCodeForToken cfg http code state expectedState
         = (.error (.providerError "missing access_token in response" (some st) none),
            [tokenRequest cfg code state]))
    ∧ (∀ t, body.error = none → body.access_token = some t →
       exchangeCodeForToken cfg http code state expectedState
         = (.ok ⟨t, body.token_type.getD "", body.scope.getD "",
             body.refresh_token, body.expires_in⟩, [tokenRequest cfg code state])) := by
  rw [exchange_no_mismatch cfg http code state expectedState hcode hnm]
  unfold exchangeHTTP
  refine ⟨?_, ?_, ?_⟩
  · intro e he
    simp [hresp, h2xx, he]
  · intro he ht
    simp [hresp, h2xx, he, ht]
  · intro t he ht
    simp [hresp, h2xx, he, ht]

/-- Witness for C4: the spec's stub — 200 with access_token `"t"`,
token_type `"bearer"`, scope `"repo"` — yields that token response. -/
theorem C4_witness :
    exchangeCodeForToken ⟨"id", "secret", "", false⟩
      (fun _ => .ok (200, ⟨none, none, none, some "t", some "bearer", some "repo", none, none⟩))
      "validcode" none none
      = (.ok ⟨"t", "bearer", "repo", none, none⟩,
         [tokenRequest ⟨"id", "secret", "", false⟩ "validcode" none]) :=
  (C4_exchange_response_classification ⟨"id", "secret", "", false⟩
      (fun _ => .ok (200, ⟨none, none, none, some "t", some "bearer", some "repo", none, none⟩))
      "validcode" none none 200
      ⟨none, none, none, some "t", some "bearer", some "repo", none, none⟩
      (by decide) (fun s e h _ => nomatch h) rfl (by decide)).2.2 "t" rfl rfl

/-- C6: a revocation call with non-empty token returns `true` on HTTP 204,
returns `false` on HTTP 404 as a normal result, fails with `ProviderError`
on any other status, and `false` arises only from 404. -/
theorem C6_revoke_classification (cfg : Config)
    (http : HttpRequest → Except String (Nat × String))
    (token : String) (st : Nat) (body : String)
    (htok : token ≠ "")
    (hresp : http (revokeRequest cfg token) = .ok (st, body)) :
    (st = 204 → revokeToken cfg http token = (.ok true, [revokeRequest cfg token]))
    ∧ (st = 404 → revokeToken cfg http token = (.ok false, [revokeRequest cfg token]))
    ∧ (st ≠ 204 → st ≠ 404 →
        revokeToken cfg http token
          = (.error (.providerError "token revocation failed" (some st)
              (some ⟨none, none, none, some body⟩)), [revokeRequest cfg token]))
    ∧ ((revokeToken cfg http token).1 = .ok false → st = 404) := by
  unfold revokeToken
  rw [if_neg htok]
  refine ⟨?_, ?_, ?_, ?_⟩
  · intro h; simp [hresp, h]
  · intro h; simp [hresp, h]
  · intro h1 h2; simp [hresp, h1, h2]
  · intro h
    by_cases h204 : st = 204
    · simp [hresp, h204] at h
    · by_cases h404 : st = 404
      · exact h404
      · simp [hresp, h204, h404] at h

/-- Witness for C6: 204 yields `true` and 404 yields `false` at concrete
inputs. -/
theorem C6_witness :
    revokeToken ⟨"id", "secret", "", false⟩ (fun _ => .ok (204, "")) "tok"
      = (.ok true, [revokeRequest ⟨"id", "secret", "", false⟩ "tok"])
    ∧ revokeToken ⟨"id", "secret", "", false⟩ (fun _ => .ok (404, "")) "tok"
      = (.ok false, [revokeRequest ⟨"id", "secret", "", false⟩ "tok"]) :=
  ⟨(C6_revoke_classification ⟨"id", "secret", "", false⟩ (fun _ => .ok (204, ""))
      "tok" 204 "" (by decide) rfl).1 rfl,
   (C6_revoke_classification ⟨"id", "secret", "", false⟩ (fun _ => .ok (404, ""))
      "tok" 404 "" (by decide) rfl).2.1 rfl⟩

/-- C7: `testAPIAccess` with an empty token fails with `ValidationError` and
no HTTP call; HTTP 401 or 403 fails with
`AuthenticationError "token invalid or expired"`; any other non-2xx fails
with `ProviderError` carrying status and body; 2xx returns the profile with
absent optional fields kept absent. -/
theorem C7_test_access_classification (cfg : Config)
    (http : HttpRequest → Except String (Nat × UserProfile))
    (token : String) (st : Nat) (body : UserProfile) :
    (testAPIAccess cfg http ""
       = (.error (.validationError "access token must not be empty"), []))
    ∧ (token ≠ "" → http (userRequest token) = .ok (st, body) →
        ((st = 401 ∨ st = 403 →
           testAPIAccess cfg http token
             = (.error (.authenticationError "token invalid or expired"), [userRequest token]))
         ∧ (¬(st = 401 ∨ st = 403) → ¬(200 ≤ st ∧ st < 300) →
           testAPIAccess cfg http token
             = (.error (.providerError "API access failed" (some st)
                 (some ⟨none, none, none, some (userBodyRaw body)⟩)), [userRequest token]))
         ∧ (200 ≤ st ∧ st < 300 →
           testAPIAccess cfg http token = (.ok body, [userRequest token])))) := by
  constructor
  · rfl
  · intro htok hresp
    unfold testAPIAccess
    rw [if_neg htok]
    refine ⟨?_, ?_, ?_⟩
    · intro h; simp [hresp, h]
    · intro h1 h2; simp [hresp, h1, h2]
    · intro h
      have h401 : ¬(st = 401 ∨ st = 403) := by
        rintro (rfl | rfl) <;> omega
      simp [hresp, h401, h]

/-- Witness for C7: a stub returning 401 makes `testAPIAccess "bad"` fail
with `AuthenticationError`, and the empty token fails locally. -/
theorem C7_witness :
    testAPIAccess ⟨"id", "secret", "", false⟩
        (fun _ => .ok (401, ⟨none, none, none, none, none, none⟩)) ""
      = (.error (.validationError "access token must not be empty"), [])
    ∧ testAPIAccess ⟨"id", "secret", "", false⟩
        (fun _ => .ok (401, ⟨none, none, none, none, none, none⟩)) "bad"
      = (.error (.authenticationError "token invalid or expired"), [userRequest "bad"]) :=
  ⟨(C7_test_access_classification ⟨"id", "secret", "", false⟩
      (fun _ => .ok (401, ⟨none, none, none, none, none, none⟩)) "bad" 401
      ⟨none, none, none, none, none, none⟩).1,
   ((C7_test_access_classification ⟨"id", "secret", "", false⟩
      (fun _ => .ok (401, ⟨none, none, none, none, none, none⟩)) "bad" 401
      ⟨none, none, none, none, none, none⟩).2 (by decide) rfl).1 (Or.inl rfl)⟩

end GhOAuth
